import Mathlib

/-!
Shallow embedding of the deterministic core of `src/financegpt.py`:
the SQLite-backed transaction ledger tools (`add_transaction`,
`list_transactions`, `delete_transaction`, `clear_transactions`,
`get_budget_summary`, `get_investment_summary`) and the pure tools
(`calculate_loan_repayment`, `dti_ratio`, `analyze_sentiment`).

Modelling conventions:
- SQLite `REAL` amounts and Python floats are embedded as `ℚ`; the claims
  under study concern sums, differences and branch conditions, none of
  which hinge on binary floating-point rounding.
- The SQLite table is a `LedgerState`: a list of rows plus the
  `AUTOINCREMENT` counter (SQLite's `sqlite_sequence` next-id, which is
  never reset by `DELETE`).
- Each tool's user-facing text return is embedded as an inductive result
  type whose constructors mirror the distinct messages the Python code
  can produce; numeric payloads carry the reported numbers.
-/

namespace FinanceGPT

/-- Calendar date as produced by the Python `datetime`/`dateutil` layer. -/
structure Date where
  year : Nat
  month : Nat
  day : Nat
deriving DecidableEq, Repr

/-- Zero-pad a natural below 100 to two digits, as `strftime` does for
`%m` and `%d`. -/
def pad2 (n : Nat) : String :=
  if n < 10 then "0" ++ toString n else toString n

/-- Model of `strftime("%Y-%m")` on a parsed date. -/
def fmtYM (d : Date) : String :=
  toString d.year ++ "-" ++ pad2 d.month

/-- Model of `strftime("%Y-%m-%d")` on a parsed date. -/
def fmtYMD (d : Date) : String :=
  toString d.year ++ "-" ++ pad2 d.month ++ "-" ++ pad2 d.day

/-- English month names and their three-letter abbreviations, lowercased,
as recognised by the external `dateutil` parser. -/
def monthTable : List (String × Nat) :=
  [("january", 1), ("february", 2), ("march", 3), ("april", 4),
   ("may", 5), ("june", 6), ("july", 7), ("august", 8),
   ("september", 9), ("october", 10), ("november", 11), ("december", 12),
   ("jan", 1), ("feb", 2), ("mar", 3), ("apr", 4), ("jun", 6),
   ("jul", 7), ("aug", 8), ("sep", 9), ("oct", 10), ("nov", 11), ("dec", 12)]

/-- Look a token up in the month-name table, case-insensitively. -/
def monthFromToken (t : List Char) : Option Nat :=
  (monthTable.find? (fun p => p.1.data = t.map Char.toLower)).map (·.2)

/-- Numeric value of a digit-character token, most significant first. -/
def digitsVal (l : List Char) : Nat :=
  l.foldl (fun n c => n * 10 + (c.toNat - '0'.toNat)) 0

/-- A token is numeric when it is non-empty and all digits. -/
def isNatToken (l : List Char) : Bool :=
  !l.isEmpty && l.all (·.isDigit)

/-- Parse a numeric token; `none` on anything non-numeric. -/
def tokenNat? (l : List Char) : Option Nat :=
  if isNatToken l then some (digitsVal l) else none

/-- Split a free-form date string into tokens on spaces, commas, hyphens
and slashes, dropping empty tokens. -/
def dateTokens (s : String) : List (List Char) :=
  (s.data.splitOnP (fun c => c == ' ' || c == ',' || c == '-' || c == '/')).filter
    (fun t => !t.isEmpty)

/-- Modelled from the external library `dateutil.parser.parse`, restricted
to the token shapes this repository feeds it (month names, `YYYY-MM`,
`YYYY-MM-DD`, bare years): components absent from the input are filled in
from the default date `today`, exactly as `dateutil` fills them from its
default (the current date). Strings outside these shapes parse to `none`,
modelling the `ParserError` branch. -/
def dateutilParse (today : Date) (s : String) : Option Date :=
  match dateTokens s with
  | [t] =>
      match monthFromToken t with
      | some m => some ⟨today.year, m, today.day⟩
      | none =>
          if isNatToken t ∧ t.length = 4 then some ⟨digitsVal t, today.month, today.day⟩
          else none
  | [t1, t2] =>
      match monthFromToken t1, monthFromToken t2 with
      | some m, none =>
          if isNatToken t2 ∧ t2.length = 4 then some ⟨digitsVal t2, m, today.day⟩
          else
            match tokenNat? t2 with
            | some d => if 1 ≤ d ∧ d ≤ 31 then some ⟨today.year, m, d⟩ else none
            | none => none
      | none, some m =>
          if isNatToken t1 ∧ t1.length = 4 then some ⟨digitsVal t1, m, today.day⟩
          else none
      | none, none =>
          if isNatToken t1 ∧ t1.length = 4 then
            match tokenNat? t2 with
            | some m => if 1 ≤ m ∧ m ≤ 12 then some ⟨digitsVal t1, m, today.day⟩ else none
            | none => none
          else none
      | some _, some _ => none
  | [t1, t2, t3] =>
      if isNatToken t1 ∧ t1.length = 4 then
        match tokenNat? t2, tokenNat? t3 with
        | some m, some d =>
            if 1 ≤ m ∧ m ≤ 12 ∧ 1 ≤ d ∧ d ≤ 31 then some ⟨digitsVal t1, m, d⟩ else none
        | _, _ => none
      else
        match monthFromToken t1, tokenNat? t2, tokenNat? t3 with
        | some m, some d, some y =>
            if 1 ≤ d ∧ d ≤ 31 ∧ t3.length = 4 then some ⟨y, m, d⟩ else none
        | _, _, _ => none
  | _ => none

/-- Modelled from the external library call `pd.to_datetime` as applied to
the ledger's stored date column: stored dates are `YYYY-MM-DD` strings
(see the table schema and `add_transaction`), and this strict parse covers
exactly that shape. -/
def pdToDatetime (s : String) : Option Date :=
  match s.data.splitOn '-' with
  | [t1, t2, t3] =>
      match tokenNat? t1, tokenNat? t2, tokenNat? t3 with
      | some y, some m, some d =>
          if 1 ≤ m ∧ m ≤ 12 ∧ 1 ≤ d ∧ d ≤ 31 then some ⟨y, m, d⟩ else none
      | _, _, _ => none
  | _ => none

/-- Model of the Python string method `.lower()` (ASCII case folding). -/
def pyLower (s : String) : String :=
  ⟨s.data.map Char.toLower⟩

/-- Row of the `transactions` table:
`id INTEGER PRIMARY KEY AUTOINCREMENT, date TEXT, type TEXT,
category TEXT, amount REAL`. -/
structure Transaction where
  id : Nat
  date : String
  type : String
  category : String
  amount : ℚ
deriving DecidableEq, Repr

/-- Ledger store state: the table rows in insertion order plus the
`AUTOINCREMENT` counter (SQLite's `sqlite_sequence` entry, which rises on
every insert and is never lowered by `DELETE`). -/
structure LedgerState where
  rows : List Transaction
  nextId : Nat
deriving DecidableEq, Repr

/-- Fresh database: empty table; `AUTOINCREMENT` starts assigning at 1. -/
def initialLedger : LedgerState := ⟨[], 1⟩

/-- The date string `add_transaction` stores for a given optional `date`
argument (the value bound to `date_str` in the Python code). The guard is
Python's `if date:` truthiness test, so both `None` and the empty string
fall through to the current date; a supplied non-empty string is run
through `dateutil.parser.parse` and formatted `YYYY-MM-DD`, with the bare
`except` keeping the string as given on a parse failure. -/
def storedDateStr (today : Date) (date : Option String) : String :=
  match date with
  | some s =>
      if s = "" then fmtYMD today
      else
        match dateutilParse today s with
        | some dt => fmtYMD dt
        | none => s
  | none => fmtYMD today

/-- Model of `add_transaction` from src/financegpt.py: the row is inserted
with the `storedDateStr` date, `type.lower()` and the next
`AUTOINCREMENT` id. -/
def addTransaction (today : Date) (st : LedgerState)
    (ty category : String) (amount : ℚ) (date : Option String) : LedgerState :=
  ⟨st.rows ++ [⟨st.nextId, storedDateStr today date, pyLower ty, category, amount⟩],
   st.nextId + 1⟩

/-- Result of `list_transactions`: either the explicit empty-ledger
message or the table of rows. -/
inductive ListResult
| noTransactions
| table (rows : List Transaction)
deriving DecidableEq, Repr

/-- Model of `list_transactions`: `SELECT * FROM transactions`, with the
"No transactions recorded yet." message on an empty table. -/
def listTransactions (st : LedgerState) : ListResult :=
  if st.rows = [] then .noTransactions else .table st.rows

/-- Model of `delete_transaction`: `DELETE FROM transactions WHERE id = ?`
(removes every row carrying the id; the primary key makes it at most one),
then returns the fixed "Deleted transaction with id {record_id}." text
whether or not a row existed. -/
def deleteTransaction (st : LedgerState) (recordId : Nat) :
    LedgerState × String :=
  (⟨st.rows.filter (fun t => t.id ≠ recordId), st.nextId⟩,
   "Deleted transaction with id " ++ toString recordId ++ ".")

/-- Model of `clear_transactions`: `DELETE FROM transactions`; the
`AUTOINCREMENT` counter is untouched. -/
def clearTransactions (st : LedgerState) : LedgerState :=
  ⟨[], st.nextId⟩

/-- Sum of the `amount` column over a list of rows. -/
def sumAmounts (rows : List Transaction) : ℚ :=
  (rows.map (·.amount)).sum

/-- Categories of a row list with duplicates removed, paired with the
per-category amount sums: model of
`groupby('category')['amount'].sum()`. -/
def breakdownOf (rows : List Transaction) : List (String × ℚ) :=
  ((rows.map (·.category)).dedup).map
    (fun c => (c, sumAmounts (rows.filter (fun t => t.category = c))))

/-- Result of `get_budget_summary`: the explicit empty-ledger message;
the uncaught exception raised by `pd.to_datetime` (default
`errors='raise'`) when some stored date does not parse — reachable
because `add_transaction`'s fallback can store raw strings; or the
reported income total, expense total, balance and expense breakdown. -/
inductive BudgetResult
| noTransactions
| dateParseError
| summary (income expense balance : ℚ) (breakdown : List (String × ℚ))
deriving DecidableEq, Repr

/-- Month filter normalisation inside `get_budget_summary`: each supplied
month string is parsed with `dateutil` and formatted `%Y-%m`; on parse
failure the string is kept as given (assumed already `YYYY-MM`). -/
def normalizeMonths (today : Date) (months : List String) : List String :=
  months.map (fun m =>
    match dateutilParse today m with
    | some dt => fmtYM dt
    | none => m)

/-- Month filter applied to the rows: a row survives when its stored date,
parsed by `pd.to_datetime` and formatted `%Y-%m`, is in the normalised
month list. In Python `if months:` is falsy for both `None` and `[]`, so
an empty list also means "no filter". The `none` arm of the inner match is
dead in `getBudgetSummary`, whose column-conversion guard has already
raised on any unparseable stored date before filtering happens. -/
def filterByMonths (today : Date) (rows : List Transaction)
    (months : Option (List String)) : List Transaction :=
  match months with
  | none => rows
  | some ms =>
      if ms = [] then rows
      else
        let normalized := normalizeMonths today ms
        rows.filter (fun t =>
          match pdToDatetime t.date with
          | some dt => normalized.contains (fmtYM dt)
          | none => false)

/-- Model of `get_budget_summary` from src/financegpt.py: empty table
short-circuits to the "No transactions recorded yet." message; then
`df['date'] = pd.to_datetime(df['date'])` converts the whole date column
before any month check, raising (→ `.dateParseError`) if any stored date
fails to parse; otherwise the month filter is applied, income and expense
totals are summed over the `type == "income"` and `type == "expense"`
rows, balance is their difference, and the breakdown groups the expense
rows by category. -/
def getBudgetSummary (today : Date) (st : LedgerState)
    (months : Option (List String)) : BudgetResult :=
  if st.rows = [] then .noTransactions
  else if st.rows.all (fun t => (pdToDatetime t.date).isSome) then
    let rows := filterByMonths today st.rows months
    let inc := sumAmounts (rows.filter (fun t => t.type = "income"))
    let exp := sumAmounts (rows.filter (fun t => t.type = "expense"))
    .summary inc exp (inc - exp) (breakdownOf (rows.filter (fun t => t.type = "expense")))
  else .dateParseError

/-- Case-insensitive substring test used by
`df['category'].str.contains("investment", case=False)`. -/
def categoryMatchesInvestment (c : String) : Bool :=
  decide ("investment".data <:+: c.data.map Char.toLower)

/-- Result of `get_investment_summary`: the empty-ledger message, the
no-match message, or the reported total and per-category breakdown. -/
inductive InvestmentResult
| noTransactions
| noInvestments
| summary (total : ℚ) (breakdown : List (String × ℚ))
deriving DecidableEq, Repr

/-- Model of `get_investment_summary` from src/financegpt.py: empty table
short-circuits to "No transactions recorded yet."; otherwise rows whose
category contains "investment" case-insensitively are selected
(irrespective of their type); no match yields "No investment transactions
found.", else the total and breakdown over the selected rows. -/
def getInvestmentSummary (st : LedgerState) : InvestmentResult :=
  if st.rows = [] then .noTransactions
  else
    let inv := st.rows.filter (fun t => categoryMatchesInvestment t.category)
    if inv = [] then .noInvestments
    else .summary (sumAmounts inv) (breakdownOf inv)

/-- Loan record as supplied inline to `calculate_loan_repayment`:
`{name, balance, rate, min_payment}`. -/
structure Loan where
  name : String
  balance : ℚ
  rate : ℚ
  min_payment : ℚ
deriving DecidableEq, Repr

/-- Ordering used by the avalanche branch,
`sort_values(by="rate", ascending=False)`: higher interest rate first. -/
def rateDesc (a b : Loan) : Prop := b.rate ≤ a.rate

/-- Ordering used by the snowball/default branch,
`sort_values(by="balance")`: smaller balance first. -/
def balanceAsc (a b : Loan) : Prop := a.balance ≤ b.balance

instance : DecidableRel rateDesc := fun a b => inferInstanceAs (Decidable (b.rate ≤ a.rate))

instance : DecidableRel balanceAsc := fun a b => inferInstanceAs (Decidable (a.balance ≤ b.balance))

instance : IsTotal Loan rateDesc := ⟨fun a b => le_total b.rate a.rate⟩

instance : IsTrans Loan rateDesc := ⟨fun _ _ _ h h' => le_trans h' h⟩

instance : IsTotal Loan balanceAsc := ⟨fun a b => le_total a.balance b.balance⟩

instance : IsTrans Loan balanceAsc := ⟨fun _ _ _ h h' => le_trans h h'⟩

/-- Model of `calculate_loan_repayment` from src/financegpt.py, returning
the ordered loan table (the textual tip around it is fixed): when
`strategy.lower() == "avalanche"` the frame is sorted by rate descending,
otherwise — any other string, "snowball" included — by balance
ascending. -/
def calculateLoanRepayment (loans : List Loan) (strategy : String) : List Loan :=
  if pyLower strategy = "avalanche" then
    List.insertionSort rateDesc loans
  else
    List.insertionSort balanceAsc loans

/-- Result of `dti_ratio`: the income-must-be-positive message, or the
reported ratio together with the fixed healthy threshold quoted in the
reply text. -/
inductive DtiResult
| incomeMustBePositive
| ratio (value : ℚ) (healthyThresholdPct : ℚ)
deriving DecidableEq, Repr

/-- Model of `dti_ratio` from src/financegpt.py: `monthly_income <= 0`
yields "Income must be greater than zero." and no ratio; otherwise the
ratio is `monthly_debt / monthly_income * 100` and the reply cites the
fixed 36% healthy threshold. -/
def dtiRatio (monthlyDebt monthlyIncome : ℚ) : DtiResult :=
  if monthlyIncome ≤ 0 then .incomeMustBePositive
  else .ratio (monthlyDebt / monthlyIncome * 100) 36

/-- Overall sentiment label. -/
inductive Mood
| positive
| negative
| neutral
deriving DecidableEq, Repr

/-- Result of `analyze_sentiment`: the explicit no-headlines message, or
the overall mood with the average polarity it reports. -/
inductive SentimentResult
| noHeadlines
| overall (mood : Mood) (avg : ℚ)
deriving DecidableEq, Repr

/-- Average of the per-headline polarity scores,
`sum(scores) / len(scores)`. The per-headline scorer
(`TextBlob(h).sentiment.polarity`, an external library) is a parameter. -/
def avgPolarity (polarity : String → ℚ) (headlines : List String) : ℚ :=
  (headlines.map polarity).sum / (headlines.map polarity).length

/-- Label attached to an average polarity: `"Positive" if avg > 0.2 else
"Negative" if avg < -0.2 else "Neutral"`. -/
def moodOf (avg : ℚ) : Mood :=
  if avg > 2/10 then .positive else if avg < -(2/10) then .negative else .neutral

/-- Model of `analyze_sentiment` from src/financegpt.py: the empty list
short-circuits to "No headlines provided."; otherwise the polarity scores
are averaged and labelled by `moodOf`. -/
def analyzeSentiment (polarity : String → ℚ) (headlines : List String) :
    SentimentResult :=
  if headlines = [] then .noHeadlines
  else
    let avg := avgPolarity polarity headlines
    .overall (moodOf avg) avg

/-- Ledger-mutating operations reachable through the budget tools. -/
inductive Op
| add (ty category : String) (amount : ℚ) (date : Option String)
| delete (recordId : Nat)
| clear
deriving Repr

/-- One mutation step of the ledger store. -/
def step (today : Date) (st : LedgerState) : Op → LedgerState
  | .add ty category amount date => addTransaction today st ty category amount date
  | .delete recordId => (deleteTransaction st recordId).1
  | .clear => clearTransactions st

/-- Run a sequence of operations from a state. -/
def run (today : Date) (st : LedgerState) : List Op → LedgerState
  | [] => st
  | op :: ops => run today (step today st op) ops

/-- Trace of the ids assigned to `add` operations, in order, along a run
of the ledger. -/
def assignedIds (today : Date) (st : LedgerState) : List Op → List Nat
  | [] => []
  | op :: ops =>
      match op with
      | .add .. => st.nextId :: assignedIds today (step today st op) ops
      | _ => assignedIds today (step today st op) ops

/-! Helper lemmas about the ledger state machine. -/

lemma nextId_le_step (today : Date) (st : LedgerState) (op : Op) :
    st.nextId ≤ (step today st op).nextId := by
  cases op with
  | add ty category amount date =>
      simp [step, addTransaction]
  | delete recordId =>
      simp [step, deleteTransaction]
  | clear =>
      simp [step, clearTransactions]

lemma nextId_le_run (today : Date) (st : LedgerState) (ops : List Op) :
    st.nextId ≤ (run today st ops).nextId := by
  induction ops generalizing st with
  | nil => simp [run]
  | cons op ops ih =>
      exact le_trans (nextId_le_step today st op) (ih (step today st op))

lemma nextId_le_mem_assignedIds (today : Date) (st : LedgerState) (ops : List Op) :
    ∀ i ∈ assignedIds today st ops, st.nextId ≤ i := by
  induction ops generalizing st with
  | nil => simp [assignedIds]
  | cons op ops ih =>
      intro i hi
      cases op with
      | add ty category amount date =>
          rcases List.mem_cons.mp hi with h | h
          · exact h ▸ le_refl _
          · exact le_trans (nextId_le_step today st (.add ty category amount date))
              (ih (step today st (.add ty category amount date)) i h)
      | delete recordId =>
          exact le_trans (nextId_le_step today st (.delete recordId))
            (ih (step today st (.delete recordId)) i hi)
      | clear =>
          exact le_trans (nextId_le_step today st .clear)
            (ih (step today st .clear) i hi)

lemma mem_assignedIds_lt_run (today : Date) (st : LedgerState) (ops : List Op) :
    ∀ i ∈ assignedIds today st ops, i < (run today st ops).nextId := by
  induction ops generalizing st with
  | nil => simp [assignedIds]
  | cons op ops ih =>
      intro i hi
      cases op with
      | add ty category amount date =>
          rcases List.mem_cons.mp hi with h | h
          · subst h
            have h1 : st.nextId < (step today st (.add ty category amount date)).nextId := by
              simp [step, addTransaction]
            exact lt_of_lt_of_le h1
              (nextId_le_run today (step today st (.add ty category amount date)) ops)
          · exact ih (step today st (.add ty category amount date)) i h
      | delete recordId =>
          exact ih (step today st (.delete recordId)) i hi
      | clear =>
          exact ih (step today st .clear) i hi

lemma assignedIds_pairwise (today : Date) (st : LedgerState) (ops : List Op) :
    List.Pairwise (· < ·) (assignedIds today st ops) := by
  induction ops generalizing st with
  | nil => simp [assignedIds]
  | cons op ops ih =>
      cases op with
      | add ty category amount date =>
          refine List.pairwise_cons.mpr ⟨?_, ih (step today st (.add ty category amount date))⟩
          intro i hi
          have h1 : st.nextId < (step today st (.add ty category amount date)).nextId := by
            simp [step, addTransaction]
          exact lt_of_lt_of_le h1
            (nextId_le_mem_assignedIds today (step today st (.add ty category amount date)) ops i hi)
      | delete recordId =>
          exact ih (step today st (.delete recordId))
      | clear =>
          exact ih (step today st .clear)

/-- C9: along every sequence of add/delete/clear operations from the fresh
ledger, the ids assigned by the `AUTOINCREMENT` column are strictly
increasing over the ledger's lifetime (never reused, even after deletes or
clears), and an `add` of any (type, category, amount) triple followed by
`list_transactions` shows a row with that category and amount under a
fresh id not previously assigned. -/
theorem C9_ids_strictly_increase_add_then_list (today : Date) (ops : List Op)
    (ty category : String) (amount : ℚ) (date : Option String) :
    List.Pairwise (· < ·) (assignedIds today initialLedger ops) ∧
    (∃ t, t ∈ (step today (run today initialLedger ops) (.add ty category amount date)).rows ∧
      listTransactions (step today (run today initialLedger ops) (.add ty category amount date)) =
        .table (step today (run today initialLedger ops) (.add ty category amount date)).rows ∧
      t.category = category ∧ t.amount = amount ∧
      t.id ∉ assignedIds today initialLedger ops) := by
  constructor
  · exact assignedIds_pairwise today initialLedger ops
  · refine ⟨⟨(run today initialLedger ops).nextId,
      storedDateStr today date, pyLower ty, category, amount⟩, ?_, ?_, rfl, rfl, ?_⟩
    · simp [step, addTransaction, storedDateStr]
    · have hne : (step today (run today initialLedger ops) (.add ty category amount date)).rows ≠ [] := by
        simp [step, addTransaction]
      simp [listTransactions, hne]
    · intro hmem
      exact lt_irrefl _ (mem_assignedIds_lt_run today initialLedger ops _ hmem)

/-- C3: `delete_transaction` is idempotent: a second delete of the same id
leaves the ledger unchanged, the returned text is the fixed
"Deleted transaction with id ..." report whether or not a matching row
exists, and deleting an id that is not present leaves the ledger
unchanged. -/
theorem C3_delete_idempotent (st : LedgerState) (recordId : Nat) :
    (deleteTransaction (deleteTransaction st recordId).1 recordId).1 =
      (deleteTransaction st recordId).1 ∧
    (deleteTransaction st recordId).2 =
      "Deleted transaction with id " ++ toString recordId ++ "." ∧
    ((∀ t ∈ st.rows, t.id ≠ recordId) → (deleteTransaction st recordId).1 = st) := by
  refine ⟨?_, rfl, ?_⟩
  · simp [deleteTransaction, List.filter_filter]
  · intro h
    obtain ⟨rows, nextId⟩ := st
    simp only [deleteTransaction, LedgerState.mk.injEq, and_true]
    apply List.filter_eq_self.mpr
    intro t ht
    simpa using h t ht

/-- Witness for C3 at a concrete ledger and id: deleting id 2, absent from
the single-row ledger, changes nothing and still reports deletion. -/
theorem C3_delete_idempotent_witness :
    (deleteTransaction
        (deleteTransaction ⟨[⟨1, "2025-04-05", "income", "salary", 100⟩], 2⟩ 2).1 2).1 =
      (deleteTransaction ⟨[⟨1, "2025-04-05", "income", "salary", 100⟩], 2⟩ 2).1 ∧
    (deleteTransaction ⟨[⟨1, "2025-04-05", "income", "salary", 100⟩], 2⟩ 2).2 =
      "Deleted transaction with id " ++ toString 2 ++ "." ∧
    (deleteTransaction ⟨[⟨1, "2025-04-05", "income", "salary", 100⟩], 2⟩ 2).1 =
      ⟨[⟨1, "2025-04-05", "income", "salary", 100⟩], 2⟩ :=
  ⟨(C3_delete_idempotent ⟨[⟨1, "2025-04-05", "income", "salary", 100⟩], 2⟩ 2).1,
   (C3_delete_idempotent ⟨[⟨1, "2025-04-05", "income", "salary", 100⟩], 2⟩ 2).2.1,
   (C3_delete_idempotent ⟨[⟨1, "2025-04-05", "income", "salary", 100⟩], 2⟩ 2).2.2
     (by decide)⟩

/-- C5: `dti_ratio` returns the income-must-be-positive message, and no
ratio, exactly when the monthly income is ≤ 0; for positive income it
returns the ratio `monthly_debt / monthly_income * 100` together with the
fixed 36% healthy threshold. -/
theorem C5_dti_income_guard (monthlyDebt monthlyIncome : ℚ) :
    (dtiRatio monthlyDebt monthlyIncome = .incomeMustBePositive ↔ monthlyIncome ≤ 0) ∧
    (0 < monthlyIncome →
      dtiRatio monthlyDebt monthlyIncome =
        .ratio (monthlyDebt / monthlyIncome * 100) 36) := by
  constructor
  · constructor
    · intro h
      by_contra hc
      simp [dtiRatio, hc] at h
    · intro h
      simp [dtiRatio, h]
  · intro h
    simp [dtiRatio, not_le.mpr h]

/-- Witness for C5: income 0 (the spec's `debt_to_income(2000, 0)` probe)
hits the guard; income 2 yields the ratio with the 36% threshold. -/
theorem C5_dti_income_guard_witness :
    dtiRatio 2000 0 = .incomeMustBePositive ∧
    dtiRatio 100 2 = .ratio (100 / 2 * 100) 36 :=
  ⟨(C5_dti_income_guard 2000 0).1.mpr (by decide),
   (C5_dti_income_guard 100 2).2 (by decide)⟩

/-- C2: `calculate_loan_repayment` returns a permutation of the input
loans; when the strategy lowercases to "avalanche" it is ordered by
interest rate descending; for every other strategy string — "snowball" or
unknown — it is ordered by balance ascending and coincides with the
snowball result rather than erroring. -/
theorem C2_loan_strategy_ordering (loans : List Loan) (strategy : String)
    (h : loans ≠ []) :
    List.Perm (calculateLoanRepayment loans strategy) loans ∧
    (pyLower strategy = "avalanche" →
      List.Sorted rateDesc (calculateLoanRepayment loans strategy)) ∧
    (pyLower strategy ≠ "avalanche" →
      List.Sorted balanceAsc (calculateLoanRepayment loans strategy) ∧
      calculateLoanRepayment loans strategy = calculateLoanRepayment loans "snowball") := by
  by_cases hs : pyLower strategy = "avalanche"
  · refine ⟨?_, fun _ => ?_, fun hc => absurd hs hc⟩
    · simp only [calculateLoanRepayment, if_pos hs]
      exact List.perm_insertionSort rateDesc loans
    · simp only [calculateLoanRepayment, if_pos hs]
      exact List.sorted_insertionSort rateDesc loans
  · refine ⟨?_, fun hc => absurd hc hs, fun _ => ⟨?_, ?_⟩⟩
    · simp only [calculateLoanRepayment, if_neg hs]
      exact List.perm_insertionSort balanceAsc loans
    · simp only [calculateLoanRepayment, if_neg hs]
      exact List.sorted_insertionSort balanceAsc loans
    · simp only [calculateLoanRepayment, if_neg hs,
        if_neg (show ¬ pyLower "snowball" = "avalanche" by decide)]

/-- Witness for C2 on the spec's example loans A(1000, 5%) and
B(500, 9%): the "AVALANCHE" strategy sorts by rate descending, and the
unknown strategy "payoff" produces the snowball (balance-ascending)
ordering. -/
theorem C2_loan_strategy_ordering_witness :
    List.Perm
      (calculateLoanRepayment [⟨"A", 1000, 5, 10⟩, ⟨"B", 500, 9, 10⟩] "AVALANCHE")
      [⟨"A", 1000, 5, 10⟩, ⟨"B", 500, 9, 10⟩] ∧
    List.Sorted rateDesc
      (calculateLoanRepayment [⟨"A", 1000, 5, 10⟩, ⟨"B", 500, 9, 10⟩] "AVALANCHE") ∧
    List.Sorted balanceAsc
      (calculateLoanRepayment [⟨"A", 1000, 5, 10⟩, ⟨"B", 500, 9, 10⟩] "payoff") ∧
    calculateLoanRepayment [⟨"A", 1000, 5, 10⟩, ⟨"B", 500, 9, 10⟩] "payoff" =
      calculateLoanRepayment [⟨"A", 1000, 5, 10⟩, ⟨"B", 500, 9, 10⟩] "snowball" :=
  ⟨(C2_loan_strategy_ordering [⟨"A", 1000, 5, 10⟩, ⟨"B", 500, 9, 10⟩] "AVALANCHE"
      (by decide)).1,
   (C2_loan_strategy_ordering [⟨"A", 1000, 5, 10⟩, ⟨"B", 500, 9, 10⟩] "AVALANCHE"
      (by decide)).2.1 (by decide),
   ((C2_loan_strategy_ordering [⟨"A", 1000, 5, 10⟩, ⟨"B", 500, 9, 10⟩] "payoff"
      (by decide)).2.2 (by decide)).1,
   ((C2_loan_strategy_ordering [⟨"A", 1000, 5, 10⟩, ⟨"B", 500, 9, 10⟩] "payoff"
      (by decide)).2.2 (by decide)).2⟩

/-- Categories in a breakdown all come from the rows it was built over. -/
lemma mem_breakdownOf (rows : List Transaction) (p : String × ℚ)
    (hp : p ∈ breakdownOf rows) : ∃ t ∈ rows, t.category = p.1 := by
  unfold breakdownOf at hp
  rcases List.mem_map.mp hp with ⟨c, hc, rfl⟩
  have hcm : c ∈ rows.map (·.category) := List.mem_dedup.mp hc
  rcases List.mem_map.mp hcm with ⟨t, ht, htc⟩
  exact ⟨t, ht, htc⟩

/-- C1 (amended): on a non-empty ledger all of whose stored dates parse,
`get_budget_summary` reports a balance equal to income total minus expense
total for every month filter, where the income and expense totals sum
exactly the filtered rows of the respective type; the per-category
breakdown covers only filtered expense rows; and a filter matching no
rows yields zero totals. The completely empty ledger instead returns the
explicit no-transactions message, and a ledger holding an unparseable
stored date raises out of `pd.to_datetime` instead of reporting totals
(see the counterexample theorem for both). -/
theorem C1_budget_balance_invariant (today : Date) (st : LedgerState)
    (months : Option (List String)) (h : st.rows ≠ [])
    (hdates : st.rows.all (fun t => (pdToDatetime t.date).isSome) = true) :
    ∃ brk,
      getBudgetSummary today st months =
        .summary
          (sumAmounts ((filterByMonths today st.rows months).filter
            (fun t => t.type = "income")))
          (sumAmounts ((filterByMonths today st.rows months).filter
            (fun t => t.type = "expense")))
          (sumAmounts ((filterByMonths today st.rows months).filter
              (fun t => t.type = "income")) -
            sumAmounts ((filterByMonths today st.rows months).filter
              (fun t => t.type = "expense")))
          brk ∧
      (∀ p ∈ brk, ∃ t ∈ filterByMonths today st.rows months,
        t.type = "expense" ∧ t.category = p.1) ∧
      (filterByMonths today st.rows months = [] →
        sumAmounts ((filterByMonths today st.rows months).filter
            (fun t => t.type = "income")) = 0 ∧
          sumAmounts ((filterByMonths today st.rows months).filter
            (fun t => t.type = "expense")) = 0) := by
  refine ⟨breakdownOf ((filterByMonths today st.rows months).filter
    (fun t => t.type = "expense")), ?_, ?_, ?_⟩
  · simp only [getBudgetSummary, if_neg h, hdates, if_pos]
  · intro p hp
    rcases mem_breakdownOf _ p hp with ⟨t, ht, htc⟩
    rcases List.mem_filter.mp ht with ⟨htm, hty⟩
    exact ⟨t, htm, by simpa using hty, htc⟩
  · intro hf
    rw [hf]
    simp [sumAmounts]

/-- Counterexample to C1 as stated: on the completely empty ledger
`get_budget_summary` returns the "No transactions recorded yet." message,
not a summary reporting three zero totals; and on a non-empty ledger
holding a stored date `pd.to_datetime` cannot parse (reachable through
`add_transaction`'s fallback) the call raises instead of reporting any
summary. -/
theorem C1_counterexample :
    getBudgetSummary ⟨2025, 1, 1⟩ initialLedger none = .noTransactions ∧
    getBudgetSummary ⟨2025, 1, 1⟩ initialLedger none ≠ .summary 0 0 0 [] ∧
    getBudgetSummary ⟨2025, 1, 1⟩
        ⟨[⟨1, "hello world!", "income", "salary", 100⟩], 2⟩ none =
      .dateParseError :=
  ⟨rfl, by decide, rfl⟩

/-- Witness for C1 on a concrete two-row ledger with no month filter. -/
theorem C1_budget_balance_invariant_witness :
    ∃ brk,
      getBudgetSummary ⟨2025, 10, 12⟩
          ⟨[⟨1, "2025-04-05", "income", "salary", 100⟩,
            ⟨2, "2025-04-07", "expense", "food", 30⟩], 3⟩ none =
        .summary
          (sumAmounts ((filterByMonths ⟨2025, 10, 12⟩
              [⟨1, "2025-04-05", "income", "salary", 100⟩,
               ⟨2, "2025-04-07", "expense", "food", 30⟩] none).filter
            (fun t => t.type = "income")))
          (sumAmounts ((filterByMonths ⟨2025, 10, 12⟩
              [⟨1, "2025-04-05", "income", "salary", 100⟩,
               ⟨2, "2025-04-07", "expense", "food", 30⟩] none).filter
            (fun t => t.type = "expense")))
          (sumAmounts ((filterByMonths ⟨2025, 10, 12⟩
              [⟨1, "2025-04-05", "income", "salary", 100⟩,
               ⟨2, "2025-04-07", "expense", "food", 30⟩] none).filter
              (fun t => t.type = "income")) -
            sumAmounts ((filterByMonths ⟨2025, 10, 12⟩
              [⟨1, "2025-04-05", "income", "salary", 100⟩,
               ⟨2, "2025-04-07", "expense", "food", 30⟩] none).filter
              (fun t => t.type = "expense")))
          brk ∧
      (∀ p ∈ brk, ∃ t ∈ filterByMonths ⟨2025, 10, 12⟩
          [⟨1, "2025-04-05", "income", "salary", 100⟩,
           ⟨2, "2025-04-07", "expense", "food", 30⟩] none,
        t.type = "expense" ∧ t.category = p.1) ∧
      (filterByMonths ⟨2025, 10, 12⟩
          [⟨1, "2025-04-05", "income", "salary", 100⟩,
           ⟨2, "2025-04-07", "expense", "food", 30⟩] none = [] →
        sumAmounts ((filterByMonths ⟨2025, 10, 12⟩
            [⟨1, "2025-04-05", "income", "salary", 100⟩,
             ⟨2, "2025-04-07", "expense", "food", 30⟩] none).filter
            (fun t => t.type = "income")) = 0 ∧
          sumAmounts ((filterByMonths ⟨2025, 10, 12⟩
            [⟨1, "2025-04-05", "income", "salary", 100⟩,
             ⟨2, "2025-04-07", "expense", "food", 30⟩] none).filter
            (fun t => t.type = "expense")) = 0) :=
  C1_budget_balance_invariant ⟨2025, 10, 12⟩
    ⟨[⟨1, "2025-04-05", "income", "salary", 100⟩,
      ⟨2, "2025-04-07", "expense", "food", 30⟩], 3⟩ none (by decide) (by decide)

/-- C4: filtering the budget summary by the month written "April 2025" and
by the month written "2025-04" selects the same rows and returns identical
results, because both caller-supplied strings normalize to the same
`YYYY-MM` key before filtering. -/
theorem C4_month_normalization_roundtrip (today : Date) (st : LedgerState)
    (h : st.rows ≠ []) :
    filterByMonths today st.rows (some ["April 2025"]) =
      filterByMonths today st.rows (some ["2025-04"]) ∧
    getBudgetSummary today st (some ["April 2025"]) =
      getBudgetSummary today st (some ["2025-04"]) :=
  ⟨rfl, rfl⟩

/-- Witness for C4 on a concrete one-row ledger. -/
theorem C4_month_normalization_roundtrip_witness :
    filterByMonths ⟨2025, 10, 12⟩
        [⟨1, "2025-04-05", "income", "salary", 100⟩] (some ["April 2025"]) =
      filterByMonths ⟨2025, 10, 12⟩
        [⟨1, "2025-04-05", "income", "salary", 100⟩] (some ["2025-04"]) ∧
    getBudgetSummary ⟨2025, 10, 12⟩
        ⟨[⟨1, "2025-04-05", "income", "salary", 100⟩], 2⟩ (some ["April 2025"]) =
      getBudgetSummary ⟨2025, 10, 12⟩
        ⟨[⟨1, "2025-04-05", "income", "salary", 100⟩], 2⟩ (some ["2025-04"]) :=
  C4_month_normalization_roundtrip ⟨2025, 10, 12⟩
    ⟨[⟨1, "2025-04-05", "income", "salary", 100⟩], 2⟩ (by decide)

/-- C6: `analyze_sentiment` on the empty headline list returns the
explicit no-headlines message and no score; on a non-empty list whose
per-headline polarities lie in [-1, 1], the overall label is Positive
exactly when the average polarity exceeds 0.2, Negative exactly when it is
below -0.2, and Neutral exactly otherwise. -/
theorem C6_sentiment_thresholds (polarity : String → ℚ)
    (headlines : List String) (h : headlines ≠ [])
    (hrange : ∀ s ∈ headlines, -1 ≤ polarity s ∧ polarity s ≤ 1) :
    analyzeSentiment polarity [] = .noHeadlines ∧
    (analyzeSentiment polarity headlines =
        .overall .positive (avgPolarity polarity headlines) ↔
      avgPolarity polarity headlines > 2/10) ∧
    (analyzeSentiment polarity headlines =
        .overall .negative (avgPolarity polarity headlines) ↔
      avgPolarity polarity headlines < -(2/10)) ∧
    (analyzeSentiment polarity headlines =
        .overall .neutral (avgPolarity polarity headlines) ↔
      (-(2/10) ≤ avgPolarity polarity headlines ∧
        avgPolarity polarity headlines ≤ 2/10)) := by
  have hres : analyzeSentiment polarity headlines =
      .overall (moodOf (avgPolarity polarity headlines))
        (avgPolarity polarity headlines) := by
    simp only [analyzeSentiment, if_neg h]
  have hmood : ∀ m : Mood,
      (analyzeSentiment polarity headlines =
          .overall m (avgPolarity polarity headlines) ↔
        moodOf (avgPolarity polarity headlines) = m) := by
    intro m
    rw [hres]
    constructor
    · intro hm
      cases hm
      rfl
    · intro hm
      rw [hm]
  refine ⟨by simp [analyzeSentiment], ?_, ?_, ?_⟩
  · rw [hmood .positive]
    unfold moodOf
    by_cases h1 : avgPolarity polarity headlines > 2/10
    · simp [h1]
    · simp only [if_neg h1]
      constructor
      · intro hc
        by_cases h2 : avgPolarity polarity headlines < -(2/10) <;> simp [h2] at hc
      · intro hc
        exact absurd hc h1
  · rw [hmood .negative]
    unfold moodOf
    by_cases h1 : avgPolarity polarity headlines > 2/10
    · simp only [if_pos h1]
      constructor
      · intro hc
        cases hc
      · intro hc
        have : (-(2/10) : ℚ) < 2/10 := by norm_num
        linarith
    · by_cases h2 : avgPolarity polarity headlines < -(2/10) <;> simp [h1, h2]
  · rw [hmood .neutral]
    unfold moodOf
    by_cases h1 : avgPolarity polarity headlines > 2/10
    · simp only [if_pos h1]
      constructor
      · intro hc
        cases hc
      · intro hc
        linarith [hc.2]
    · by_cases h2 : avgPolarity polarity headlines < -(2/10)
      · simp only [if_neg h1, if_pos h2]
        constructor
        · intro hc
          cases hc
        · intro hc
          linarith [hc.1]
      · simp only [if_neg h1, if_neg h2]
        constructor
        · intro _
          exact ⟨not_lt.mp h2, not_lt.mp h1⟩
        · intro _
          trivial

/-- Witness for C6: two identical headlines scored 1 each average to 1,
which exceeds 0.2, so the overall label is Positive. -/
theorem C6_sentiment_thresholds_witness :
    analyzeSentiment (fun _ => 1) [] = .noHeadlines ∧
    (analyzeSentiment (fun _ => 1) ["great news", "great news"] =
        .overall .positive (avgPolarity (fun _ => 1) ["great news", "great news"]) ↔
      avgPolarity (fun _ => 1) ["great news", "great news"] > 2/10) :=
  ⟨(C6_sentiment_thresholds (fun _ => 1) ["great news", "great news"]
      (by decide) (by decide)).1,
   (C6_sentiment_thresholds (fun _ => 1) ["great news", "great news"]
      (by decide) (by decide)).2.1⟩

/-- C7 (amended): on a non-empty ledger, `get_investment_summary` selects
exactly the rows whose category contains "investment" as a
case-insensitive substring — a test on the category text alone, so
independent of the row's type — and reports the sum of exactly those rows'
amounts; when the ledger is non-empty but no row matches it returns the
explicit no-investments message. The completely empty ledger instead
returns the no-transactions message (see the counterexample theorem). -/
theorem C7_investment_substring_filter (st : LedgerState) (h : st.rows ≠ []) :
    (∀ t ∈ st.rows,
      t ∈ st.rows.filter (fun t => categoryMatchesInvestment t.category) ↔
        "investment".data <:+: t.category.data.map Char.toLower) ∧
    (∀ t : Transaction, ∀ ty : String,
      categoryMatchesInvestment
          (Transaction.mk t.id t.date ty t.category t.amount).category =
        categoryMatchesInvestment t.category) ∧
    (st.rows.filter (fun t => categoryMatchesInvestment t.category) = [] →
      getInvestmentSummary st = .noInvestments) ∧
    (st.rows.filter (fun t => categoryMatchesInvestment t.category) ≠ [] →
      getInvestmentSummary st =
        .summary
          (sumAmounts (st.rows.filter (fun t => categoryMatchesInvestment t.category)))
          (breakdownOf (st.rows.filter (fun t => categoryMatchesInvestment t.category)))) := by
  refine ⟨?_, fun t ty => rfl, ?_, ?_⟩
  · intro t ht
    constructor
    · intro hf
      have := (List.mem_filter.mp hf).2
      simpa [categoryMatchesInvestment] using this
    · intro hs
      refine List.mem_filter.mpr ⟨ht, ?_⟩
      simpa [categoryMatchesInvestment] using hs
  · intro hf
    simp only [getInvestmentSummary, if_neg h, hf]
    rfl
  · intro hf
    simp only [getInvestmentSummary, if_neg h, if_neg hf]

/-- Counterexample to C7 as stated: on the completely empty ledger no row
matches, yet `get_investment_summary` returns the "No transactions
recorded yet." message, not the no-investments message. -/
theorem C7_counterexample :
    getInvestmentSummary initialLedger = .noTransactions ∧
    getInvestmentSummary initialLedger ≠ .noInvestments :=
  ⟨rfl, by decide⟩

/-- Witness for C7 on a concrete two-row ledger: the row categorised
"Investment Property" (an income row) matches, "groceries" does not. -/
theorem C7_investment_substring_filter_witness :
    (⟨1, "2025-04-05", "income", "Investment Property", 100⟩ : Transaction) ∈
      ([⟨1, "2025-04-05", "income", "Investment Property", 100⟩,
        ⟨2, "2025-04-07", "expense", "groceries", 30⟩] : List Transaction).filter
        (fun t => categoryMatchesInvestment t.category) ↔
      "investment".data <:+:
        ("Investment Property" : String).data.map Char.toLower :=
  (C7_investment_substring_filter
      ⟨[⟨1, "2025-04-05", "income", "Investment Property", 100⟩,
        ⟨2, "2025-04-07", "expense", "groceries", 30⟩], 3⟩
      (by decide)).1
    ⟨1, "2025-04-05", "income", "Investment Property", 100⟩ (by decide)

/-- C8 (amended): the date stored by `add_transaction` is the
`YYYY-MM-DD` normalization of the supplied date string when that string is
non-empty and parses; a non-empty string that fails to parse is stored
unchanged (assumed already normalized, not an error); and when the date is
omitted — or supplied as the empty string, which the `if date:` truthiness
test treats as omitted — the current date is stored. The new row carries
exactly that stored date. -/
theorem C8_add_date_normalization (today : Date) (st : LedgerState)
    (ty category : String) (amount : ℚ) (date : Option String) :
    (addTransaction today st ty category amount date).rows =
      st.rows ++
        [⟨st.nextId, storedDateStr today date, pyLower ty, category, amount⟩] ∧
    (∀ s d, date = some s → s ≠ "" → dateutilParse today s = some d →
      storedDateStr today date = fmtYMD d) ∧
    (∀ s, date = some s → s ≠ "" → dateutilParse today s = none →
      storedDateStr today date = s) ∧
    (date = none ∨ date = some "" → storedDateStr today date = fmtYMD today) := by
  refine ⟨rfl, ?_, ?_, ?_⟩
  · intro s d hs hne hd
    subst hs
    simp [storedDateStr, hne, hd]
  · intro s hs hne hd
    subst hs
    simp [storedDateStr, hne, hd]
  · intro hd
    rcases hd with hd | hd <;> subst hd <;> rfl

/-- Counterexample to C8 as stated: the empty string is a supplied date
string that fails to parse, yet it is not stored unchanged — Python's
`if date:` treats it as falsy, so the current date is stored instead. -/
theorem C8_counterexample :
    dateutilParse ⟨2025, 10, 12⟩ "" = none ∧
    storedDateStr ⟨2025, 10, 12⟩ (some "") = fmtYMD ⟨2025, 10, 12⟩ ∧
    storedDateStr ⟨2025, 10, 12⟩ (some "") ≠ "" :=
  ⟨rfl, rfl, by decide⟩

/-- Witness for C8: "April 2025" parses and is stored normalized,
"hello world!" fails to parse and is stored unchanged, and an omitted or
empty date stores the current date. -/
theorem C8_add_date_normalization_witness :
    storedDateStr ⟨2025, 10, 12⟩ (some "April 2025") = fmtYMD ⟨2025, 4, 12⟩ ∧
    storedDateStr ⟨2025, 10, 12⟩ (some "hello world!") = "hello world!" ∧
    storedDateStr ⟨2025, 10, 12⟩ none = fmtYMD ⟨2025, 10, 12⟩ ∧
    storedDateStr ⟨2025, 10, 12⟩ (some "") = fmtYMD ⟨2025, 10, 12⟩ :=
  ⟨(C8_add_date_normalization ⟨2025, 10, 12⟩ initialLedger "expense" "food" 30
      (some "April 2025")).2.1 "April 2025" ⟨2025, 4, 12⟩ rfl (by decide) (by decide),
   (C8_add_date_normalization ⟨2025, 10, 12⟩ initialLedger "expense" "food" 30
      (some "hello world!")).2.2.1 "hello world!" rfl (by decide) (by decide),
   (C8_add_date_normalization ⟨2025, 10, 12⟩ initialLedger "expense" "food" 30
      none).2.2.2 (Or.inl rfl),
   (C8_add_date_normalization ⟨2025, 10, 12⟩ initialLedger "expense" "food" 30
      (some "")).2.2.2 (Or.inr rfl)⟩

/-- C10: `add_transaction` stores the type argument lowercased — the new
row's type is exactly `type.lower()` — so two add calls whose type strings
agree up to case produce identical ledger states, and in particular the
budget summary's income/expense classification is insensitive to the
casing of the type argument. -/
theorem C10_type_lowercased (today : Date) (st : LedgerState)
    (ty category : String) (amount : ℚ) (date : Option String) :
    (addTransaction today st ty category amount date).rows =
      st.rows ++
        [⟨st.nextId, storedDateStr today date, pyLower ty, category, amount⟩] ∧
    (∀ ty', pyLower ty' = pyLower ty →
      addTransaction today st ty' category amount date =
        addTransaction today st ty category amount date) ∧
    (∀ ty' months, pyLower ty' = pyLower ty →
      getBudgetSummary today (addTransaction today st ty' category amount date)
          months =
        getBudgetSummary today (addTransaction today st ty category amount date)
          months) := by
  have hadd : ∀ ty', pyLower ty' = pyLower ty →
      addTransaction today st ty' category amount date =
        addTransaction today st ty category amount date := by
    intro ty' hty
    simp only [addTransaction]
    rw [hty]
  exact ⟨rfl, hadd, fun ty' months hty => by rw [hadd ty' hty]⟩

/-- Witness for C10: adding with type "INCOME" and with type "Income"
yields the same ledger state and the same all-time budget summary. -/
theorem C10_type_lowercased_witness :
    addTransaction ⟨2025, 10, 12⟩ initialLedger "INCOME" "salary" 100 none =
      addTransaction ⟨2025, 10, 12⟩ initialLedger "Income" "salary" 100 none ∧
    getBudgetSummary ⟨2025, 10, 12⟩
        (addTransaction ⟨2025, 10, 12⟩ initialLedger "INCOME" "salary" 100 none)
        none =
      getBudgetSummary ⟨2025, 10, 12⟩
        (addTransaction ⟨2025, 10, 12⟩ initialLedger "Income" "salary" 100 none)
        none :=
  ⟨(C10_type_lowercased ⟨2025, 10, 12⟩ initialLedger "Income" "salary" 100
      none).2.1 "INCOME" (by decide),
   (C10_type_lowercased ⟨2025, 10, 12⟩ initialLedger "Income" "salary" 100
      none).2.2 "INCOME" none (by decide)⟩

end FinanceGPT
